import Mathlib

/-!
Verification of the research-agent pipeline in `src/app.py`.

The program has two algorithmic cores:
* `extract_text url` — four extraction strategies (newspaper3k, trafilatura,
  readability, BeautifulSoup) tried in order with a 300-character quality
  gate on the body text, merging partial metadata (title, publish date)
  across strategies;
* the `/search` route (`search`) — credential and query validation, a
  per-candidate loop calling extraction and Gemini summarization with
  per-candidate failure isolation, a quota of 6 summaries with early
  termination, and a two-tier failure distinction (zero candidates vs
  candidates-but-nothing-summarizable).

External effects (network downloads, parsers, the Gemini call) are modelled
as oracles: an `ExtractEnv` records, for one URL, what each strategy's
library calls would produce (including "raised an exception"), and a
`GeminiOutcome` records what the summarization call would produce.  The
Lean functions below then mirror the Python control flow over those
oracles, statement by statement.
-/

namespace App

/-- Python truthiness of an optional string: `None` and `""` are falsy,
every other string is truthy. -/
def pyTruthy : Option String → Bool
  | none => false
  | some s => !s.isEmpty

/-- Python `a or b` on optional strings: `a` if truthy, else `b`. -/
def pyOr (a b : Option String) : Option String :=
  if pyTruthy a then a else b

/-- `len` of an optional string, 0 for `None` (only ever applied after a
truthiness check in the source). -/
def strLen : Option String → Nat
  | none => 0
  | some s => s.length

/-- Python `str.strip()`: drop leading and trailing whitespace.  Written
with `List.dropWhile` so that it evaluates by reduction (Lean's own
`String.trim` is defined by well-founded recursion on byte positions and
does not reduce). -/
def pyStrip (s : String) : String :=
  String.mk (((s.data.dropWhile Char.isWhitespace).reverse.dropWhile
    Char.isWhitespace).reverse)

/-- Outcome of the newspaper3k attempt (`Article(url); download(); parse()`):
either the whole block raised (caught by the `except`), or it produced the
attributes `art.title`, `art.text`, `art.publish_date`. -/
inductive Strat1Outcome where
  | raises
  | ok (title : Option String) (text : Option String) (date : Option String)
deriving Repr, DecidableEq

/-- Outcome of the trafilatura attempt: raised, or produced
`trafilatura.extract(downloaded)` (with `none` covering both a falsy
download and a falsy extraction result). -/
inductive Strat2Outcome where
  | raises
  | ok (extracted : Option String)
deriving Repr, DecidableEq

/-- Outcome of the readability attempt: raised before any assignment,
`fetch_html` returned `None`, raised after the `title = title or
doc.short_title()` line (e.g. inside `doc.summary()`), or produced
`doc.short_title()` and the stripped text of `doc.summary()`. -/
inductive Strat3Outcome where
  | raises
  | noHtml
  | okTitleThenRaises (shortTitle : String)
  | ok (shortTitle : String) (text : String)
deriving Repr, DecidableEq

/-- Outcome of the BeautifulSoup fallback: raised, `fetch_html` returned
`None`, or it produced the flattened page text and `soup.title.string`
(`none` when the page has no usable `<title>` node). -/
inductive Strat4Outcome where
  | raises
  | noHtml
  | ok (text : String) (soupTitleString : Option String)
deriving Repr, DecidableEq

/-- What the four strategies' library calls would yield for one URL. -/
structure ExtractEnv where
  s1 : Strat1Outcome
  s2 : Strat2Outcome
  s3 : Strat3Outcome
  s4 : Strat4Outcome
deriving Repr, DecidableEq

/-- The mutable locals of `extract_text`: `title, text, publish_date`,
all initialized to `None`. -/
structure ExtState where
  title : Option String
  text : Option String
  publish_date : Option String
deriving Repr, DecidableEq

/-- The triple `extract_text` returns. -/
abbrev ExtResult := Option String × Option String × Option String

/-- The newspaper3k block: on success it assigns
`title = art.title or title`, `text = art.text or text`, records
`publish_date` when `art.publish_date` is set, and returns early when
`text and len(text) >= 300`. -/
def strat1_step (o : Strat1Outcome) : ExtResult ⊕ ExtState :=
  match o with
  | .raises => .inr ⟨none, none, none⟩
  | .ok t x d =>
      let title := pyOr t none
      let text := pyOr x none
      let publish_date := d
      if pyTruthy text && 300 ≤ strLen text then
        .inl (title, text, publish_date)
      else
        .inr ⟨title, text, publish_date⟩

/-- The trafilatura block: returns `(title, extracted, publish_date)` when
`extracted and len(extracted) >= 300`; the outer locals are untouched
otherwise (`extracted` is its own local). -/
def strat2_step (o : Strat2Outcome) (st : ExtState) : ExtResult ⊕ ExtState :=
  match o with
  | .raises => .inr st
  | .ok extracted =>
      if pyTruthy extracted && 300 ≤ strLen extracted then
        .inl (st.title, extracted, st.publish_date)
      else
        .inr st

/-- The readability block: `title = title or doc.short_title()`, `text`
is overwritten with the stripped summary text, early return when
`len(text) >= 300`. -/
def strat3_step (o : Strat3Outcome) (st : ExtState) : ExtResult ⊕ ExtState :=
  match o with
  | .raises => .inr st
  | .noHtml => .inr st
  | .okTitleThenRaises shortTitle =>
      .inr ⟨pyOr st.title (some shortTitle), st.text, st.publish_date⟩
  | .ok shortTitle t3 =>
      let title := pyOr st.title (some shortTitle)
      let text : Option String := some t3
      if 300 ≤ t3.length then
        .inl (title, text, st.publish_date)
      else
        .inr ⟨title, text, st.publish_date⟩

/-- The BeautifulSoup block: `text` is overwritten with the flattened page
text; when `len(text) >= 300` it fills `title` from
`soup.title.string.strip()` only if `title` is still falsy, and returns. -/
def strat4_step (o : Strat4Outcome) (st : ExtState) : ExtResult ⊕ ExtState :=
  match o with
  | .raises => .inr st
  | .noHtml => .inr st
  | .ok t4 soupTitleString =>
      let text : Option String := some t4
      if 300 ≤ t4.length then
        let title :=
          if !(pyTruthy st.title) && pyTruthy soupTitleString then
            some (pyStrip (soupTitleString.getD ""))
          else st.title
        .inl (title, text, st.publish_date)
      else
        .inr ⟨st.title, text, st.publish_date⟩

/-- The tail of the pipeline after strategies 1–3: run BeautifulSoup, else
`return None, None, None`. -/
def chain4 (o4 : Strat4Outcome) (st : ExtState) : ExtResult :=
  match strat4_step o4 st with
  | .inl r => r
  | .inr _ => (none, none, none)

/-- The tail of the pipeline after strategies 1–2. -/
def chain3 (o3 : Strat3Outcome) (o4 : Strat4Outcome) (st : ExtState) : ExtResult :=
  match strat3_step o3 st with
  | .inl r => r
  | .inr st2 => chain4 o4 st2

/-- The tail of the pipeline after strategy 1. -/
def chain2 (o2 : Strat2Outcome) (o3 : Strat3Outcome) (o4 : Strat4Outcome)
    (st : ExtState) : ExtResult :=
  match strat2_step o2 st with
  | .inl r => r
  | .inr st2 => chain3 o3 o4 st2

/-- `extract_text(url)` from `src/app.py`: newspaper3k → trafilatura →
readability → BeautifulSoup, with the 300-character quality gate, returning
`(title, text, publish_date)` or `(None, None, None)`. -/
def extract_text (env : ExtractEnv) : ExtResult :=
  match strat1_step env.s1 with
  | .inl r => r
  | .inr st => chain2 env.s2 env.s3 env.s4 st

/-- Whether the newspaper3k attempt clears its quality gate
(`text and len(text) >= 300`). -/
def s1Passes : Strat1Outcome → Bool
  | .raises => false
  | .ok _ x _ => pyTruthy x && 300 ≤ strLen x

/-- Whether the trafilatura attempt clears its quality gate
(`extracted and len(extracted) >= 300`). -/
def s2Passes : Strat2Outcome → Bool
  | .raises => false
  | .ok e => pyTruthy e && 300 ≤ strLen e

/-- Whether the readability attempt clears its quality gate
(`len(text) >= 300`). -/
def s3Passes : Strat3Outcome → Bool
  | .raises => false
  | .noHtml => false
  | .okTitleThenRaises _ => false
  | .ok _ t3 => 300 ≤ t3.length

/-- Whether the BeautifulSoup attempt clears its quality gate
(`len(text) >= 300`). -/
def s4Passes : Strat4Outcome → Bool
  | .raises => false
  | .noHtml => false
  | .ok t4 _ => 300 ≤ t4.length

/-- The publish date a newspaper3k outcome carries (`art.publish_date`):
the only place `publish_date` is ever assigned in `extract_text`. -/
def Strat1Outcome.dateOf : Strat1Outcome → Option String
  | .raises => none
  | .ok _ _ d => d

/-! ## Orchestrator (the `/search` route) -/

/-- The three process-wide credentials read from the environment:
`GOOGLE_API_KEY`, `GOOGLE_CSE_ID`, `GEMINI_API_KEY` (each possibly unset). -/
structure Config where
  google_api_key : Option String
  google_cse_id : Option String
  gemini_api_key : Option String
deriving Repr, DecidableEq

/-- One search-provider item as produced by `google_search`:
`{"title": it.get("title"), "link": it.get("link")}`. -/
structure Candidate where
  title : Option String
  link : Option String
deriving Repr, DecidableEq

/-- Outcome of the `summarize_with_gemini` call for one candidate: either
the call raised (caught by the route), or it returned
`getattr(resp, "text", None)`. -/
inductive GeminiOutcome where
  | raises
  | ok (md : Option String)
deriving Repr, DecidableEq

/-- The external behavior the route observes for one candidate: what the
four extraction strategies would do for its URL, and what Gemini would
answer for its extracted text. -/
structure CandidateEnv where
  ext : ExtractEnv
  gem : GeminiOutcome
deriving Repr, DecidableEq

/-- One element appended to `summaries`:
`{"title": ..., "url": ..., "summary": ...}`. -/
structure SummaryItem where
  title : String
  url : String
  summary : String
deriving Repr, DecidableEq

/-- What the route hands back: a JSON list with status 200, or a JSON
error object with status 400 or 500. -/
inductive SearchResponse where
  | ok (summaries : List SummaryItem)
  | err400 (msg : String)
  | err500 (msg : String)
deriving Repr, DecidableEq

/-- The 500 body when a credential is missing. -/
def keysMsg : String := "One or more API keys are missing. Check your .env."

/-- The 400 body for an empty query. -/
def emptyQueryMsg : String := "Search query cannot be empty."

/-- The 500 body when candidates existed but none could be summarized. -/
def allFailedMsg : String :=
  "Found sources, but none could be summarized. Likely paywalls, video links, or blocked scrapers."

/-- The summarization step as the route sees it: `some md` exactly when the
Gemini call neither raised nor returned a falsy result (`if not md:
continue`). -/
def gemResult : GeminiOutcome → Option String
  | .raises => none
  | .ok md => if pyTruthy md then md else none

/-- The title fallback used when building a summary entry:
`title or item.get("title") or "Untitled"`. -/
def mkTitle (extTitle candTitle : Option String) : String :=
  if pyTruthy extTitle then extTitle.getD ""
  else if pyTruthy candTitle then candTitle.getD ""
  else "Untitled"

/-- The summary entry a surviving candidate contributes. -/
def mkItem (c : Candidate × CandidateEnv) : SummaryItem :=
  { title := mkTitle (extract_text c.2.ext).1 c.1.title
    url := c.1.link.getD ""
    summary := (gemResult c.2.gem).getD "" }

/-- Whether a candidate makes it all the way to `summaries.append`: a
truthy URL, a truthy extracted body, and a truthy Gemini summary. -/
def survives (c : Candidate × CandidateEnv) : Bool :=
  pyTruthy c.1.link && pyTruthy (extract_text c.2.ext).2.1
    && (gemResult c.2.gem).isSome

/-- The `for item in results:` loop of the route, accumulating `summaries`:
skip a candidate on falsy URL, falsy extracted text, failed or falsy
summarization; append otherwise; break once `len(summaries) >= 6`. -/
def processLoop : List (Candidate × CandidateEnv) → List SummaryItem → List SummaryItem
  | [], acc => acc
  | c :: rest, acc =>
      if pyTruthy c.1.link = false then processLoop rest acc
      else
        let r := extract_text c.2.ext
        if pyTruthy r.2.1 = false then processLoop rest acc
        else
          match gemResult c.2.gem with
          | none => processLoop rest acc
          | some md =>
              let acc2 := acc ++
                [{ title := mkTitle r.1 c.1.title
                   url := c.1.link.getD ""
                   summary := md }]
              if 6 ≤ acc2.length then acc2 else processLoop rest acc2

/-- `all([GOOGLE_API_KEY, GOOGLE_CSE_ID, GEMINI_API_KEY])`. -/
def credsOk (cfg : Config) : Bool :=
  pyTruthy cfg.google_api_key && pyTruthy cfg.google_cse_id
    && pyTruthy cfg.gemini_api_key

/-- The `/search` route: 500 if a credential is missing, 400 if the query
is empty after stripping, then the candidate loop, then the two-tier check
`if results and not summaries` yielding the systemic 500, else the 200
list.  `q` is the request body's `query` field (possibly absent);
`results` pairs each provider candidate with the external behavior its
processing would observe. -/
def search (cfg : Config) (q : Option String)
    (results : List (Candidate × CandidateEnv)) : SearchResponse :=
  if credsOk cfg = false then .err500 keysMsg
  else
    let query := pyStrip (q.getD "")
    if query.isEmpty then .err400 emptyQueryMsg
    else
      let summaries := processLoop results []
      if (!results.isEmpty && summaries.isEmpty) = true then .err500 allFailedMsg
      else .ok summaries

/-! ## Concrete test data -/

/-- A 300-character article body, exactly on the quality-gate threshold. -/
def bodyA : String := String.mk (List.replicate 300 'a')

/-- A configuration with all three credentials present. -/
def cfgA : Config := ⟨some "gkey", some "cx123", some "mkey"⟩

/-- A configuration whose search key is missing. -/
def cfgMissing : Config := ⟨none, some "cx123", some "mkey"⟩

/-- An extraction environment where newspaper3k fully succeeds. -/
def envPass : ExtractEnv :=
  ⟨.ok (some "T1") (some bodyA) (some "2024-01-02"), .raises, .noHtml, .noHtml⟩

/-- An extraction environment where every strategy raises. -/
def envFail : ExtractEnv := ⟨.raises, .raises, .raises, .raises⟩

/-- A candidate whose extraction and summarization both succeed. -/
def goodCand : Candidate × CandidateEnv :=
  (⟨some "CandT", some "http://a"⟩, ⟨envPass, .ok (some "- b1")⟩)

/-- A candidate whose extraction fails everywhere and whose Gemini call
raises. -/
def badCand : Candidate × CandidateEnv :=
  (⟨some "CandT", some "http://a"⟩, ⟨envFail, .raises⟩)

/-- Seven independently summarizable candidates. -/
def results7 : List (Candidate × CandidateEnv) := List.replicate 7 goodCand

/-! ## Helper lemmas -/

@[simp] lemma pyTruthy_none : pyTruthy none = false := rfl

@[simp] lemma pyTruthy_some (s : String) : pyTruthy (some s) = !s.isEmpty := rfl

@[simp] lemma strLen_none : strLen none = 0 := rfl

@[simp] lemma strLen_some (s : String) : strLen (some s) = s.length := rfl

lemma pyTruthy_ne_empty {s : String} (h : pyTruthy (some s) = true) : s ≠ "" := by
  intro hs
  subst hs
  exact absurd h (by decide)

lemma pyTruthy_some_getD {a : Option String} (h : pyTruthy a = true) :
    some (a.getD "") = a := by
  cases a with
  | none => simp [pyTruthy] at h
  | some s => rfl

lemma gemResult_ne_empty {g : GeminiOutcome} {md : String}
    (h : gemResult g = some md) : md ≠ "" := by
  cases g with
  | raises => simp [gemResult] at h
  | ok m =>
      simp only [gemResult] at h
      by_cases hm : pyTruthy m = true
      · rw [if_pos hm] at h
        subst h
        exact pyTruthy_ne_empty hm
      · rw [if_neg hm] at h
        exact absurd h (by simp)

lemma processLoop_cons (c : Candidate × CandidateEnv)
    (rest : List (Candidate × CandidateEnv)) (acc : List SummaryItem) :
    processLoop (c :: rest) acc =
      (if pyTruthy c.1.link = false then processLoop rest acc
       else
         let r := extract_text c.2.ext
         if pyTruthy r.2.1 = false then processLoop rest acc
         else
           match gemResult c.2.gem with
           | none => processLoop rest acc
           | some md =>
               let acc2 := acc ++
                 [{ title := mkTitle r.1 c.1.title
                    url := c.1.link.getD ""
                    summary := md }]
               if 6 ≤ acc2.length then acc2 else processLoop rest acc2) := rfl

lemma processLoop_skip (c : Candidate × CandidateEnv)
    (rest : List (Candidate × CandidateEnv)) (acc : List SummaryItem)
    (h : survives c = false) :
    processLoop (c :: rest) acc = processLoop rest acc := by
  unfold survives at h
  rw [processLoop_cons]
  cases hl : pyTruthy c.1.link with
  | false => simp [hl]
  | true =>
      rw [hl] at h
      simp only [Bool.true_and] at h
      cases ht : pyTruthy (extract_text c.2.ext).2.1 with
      | false => simp [hl, ht]
      | true =>
          rw [ht] at h
          simp only [Bool.true_and] at h
          cases hg : gemResult c.2.gem with
          | none => simp [hl, ht, hg]
          | some md => rw [hg] at h; simp at h

lemma processLoop_append (c : Candidate × CandidateEnv)
    (rest : List (Candidate × CandidateEnv)) (acc : List SummaryItem)
    (h : survives c = true) :
    processLoop (c :: rest) acc =
      (if 6 ≤ acc.length + 1 then acc ++ [mkItem c]
       else processLoop rest (acc ++ [mkItem c])) := by
  unfold survives at h
  rw [Bool.and_eq_true, Bool.and_eq_true] at h
  obtain ⟨⟨hl, ht⟩, hg⟩ := h
  obtain ⟨md, hmd⟩ := Option.isSome_iff_exists.mp hg
  rw [processLoop_cons]
  simp only [hl, ht, hmd]
  simp [mkItem, hmd]

lemma processLoop_none (results : List (Candidate × CandidateEnv))
    (acc : List SummaryItem) (h : ∀ c ∈ results, survives c = false) :
    processLoop results acc = acc := by
  induction results with
  | nil => rfl
  | cons c rest ih =>
      rw [processLoop_skip c rest acc (h c (List.mem_cons_self c rest))]
      exact ih (fun x hx => h x (List.mem_cons_of_mem _ hx))

lemma processLoop_all (results : List (Candidate × CandidateEnv)) :
    ∀ acc : List SummaryItem, (∀ c ∈ results, survives c = true) →
      acc.length < 6 →
      processLoop results acc = acc ++ (results.take (6 - acc.length)).map mkItem := by
  induction results with
  | nil => intro acc _ _; simp [processLoop]
  | cons c rest ih =>
      intro acc hall hacc
      rw [processLoop_append c rest acc (hall c (List.mem_cons_self c rest))]
      by_cases h6 : 6 ≤ acc.length + 1
      · rw [if_pos h6]
        have hlen : 6 - acc.length = 1 := by omega
        rw [hlen]
        simp
      · rw [if_neg h6]
        have h5 : (acc ++ [mkItem c]).length < 6 := by simp; omega
        rw [ih (acc ++ [mkItem c]) (fun x hx => hall x (List.mem_cons_of_mem _ hx)) h5]
        have hstep : 6 - acc.length = (6 - (acc ++ [mkItem c]).length) + 1 := by
          simp
          omega
        rw [hstep, List.take_succ_cons]
        simp

lemma processLoop_stop (first : List (Candidate × CandidateEnv)) :
    ∀ (rest : List (Candidate × CandidateEnv)) (acc : List SummaryItem),
      (∀ c ∈ first, survives c = true) → first ≠ [] →
      acc.length + first.length = 6 →
      processLoop (first ++ rest) acc = acc ++ first.map mkItem := by
  induction first with
  | nil => intro _ _ _ hne _; exact absurd rfl hne
  | cons c first2 ih =>
      intro rest acc hall _ hlen
      rw [List.cons_append,
        processLoop_append c (first2 ++ rest) acc (hall c (List.mem_cons_self c first2))]
      cases first2 with
      | nil =>
          have h6 : 6 ≤ acc.length + 1 := by simp at hlen; omega
          rw [if_pos h6]
          simp
      | cons c2 f2 =>
          have hlt : ¬ 6 ≤ acc.length + 1 := by simp at hlen; omega
          rw [if_neg hlt]
          rw [ih rest (acc ++ [mkItem c])
            (fun x hx => hall x (List.mem_cons_of_mem _ hx)) (by simp)
            (by simp at hlen ⊢; omega)]
          simp

lemma processLoop_le_six (results : List (Candidate × CandidateEnv)) :
    ∀ acc : List SummaryItem, acc.length < 6 →
      (processLoop results acc).length ≤ 6 := by
  induction results with
  | nil => intro acc hacc; simpa [processLoop] using Nat.le_of_lt hacc
  | cons c rest ih =>
      intro acc hacc
      cases hs : survives c with
      | false => rw [processLoop_skip c rest acc hs]; exact ih acc hacc
      | true =>
          rw [processLoop_append c rest acc hs]
          by_cases h6 : 6 ≤ acc.length + 1
          · rw [if_pos h6]
            simp
            omega
          · rw [if_neg h6]
            exact ih (acc ++ [mkItem c]) (by simp; omega)

lemma mem_processLoop (results : List (Candidate × CandidateEnv)) :
    ∀ (acc : List SummaryItem) (i : SummaryItem), i ∈ processLoop results acc →
      i ∈ acc ∨ ∃ c, c ∈ results ∧ survives c = true ∧ i = mkItem c := by
  induction results with
  | nil => intro acc i h; exact .inl h
  | cons c rest ih =>
      intro acc i h
      cases hs : survives c with
      | false =>
          rw [processLoop_skip c rest acc hs] at h
          rcases ih acc i h with h2 | ⟨x, hx, hsv, hi⟩
          · exact .inl h2
          · exact .inr ⟨x, List.mem_cons_of_mem _ hx, hsv, hi⟩
      | true =>
          rw [processLoop_append c rest acc hs] at h
          by_cases h6 : 6 ≤ acc.length + 1
          · rw [if_pos h6] at h
            rcases List.mem_append.mp h with h2 | h2
            · exact .inl h2
            · simp at h2
              exact .inr ⟨c, List.mem_cons_self c rest, hs, h2⟩
          · rw [if_neg h6] at h
            rcases ih (acc ++ [mkItem c]) i h with h2 | ⟨x, hx, hsv, hi⟩
            · rcases List.mem_append.mp h2 with h3 | h3
              · exact .inl h3
              · simp at h3
                exact .inr ⟨c, List.mem_cons_self c rest, hs, h3⟩
            · exact .inr ⟨x, List.mem_cons_of_mem _ hx, hsv, hi⟩

lemma mkTitle_ne_empty (a b : Option String) : mkTitle a b ≠ "" := by
  unfold mkTitle
  by_cases ha : pyTruthy a = true
  · rw [if_pos ha]
    cases a with
    | none => simp [pyTruthy] at ha
    | some s => simpa using pyTruthy_ne_empty ha
  · rw [if_neg ha]
    by_cases hb : pyTruthy b = true
    · rw [if_pos hb]
      cases b with
      | none => simp [pyTruthy] at hb
      | some s => simpa using pyTruthy_ne_empty hb
    · rw [if_neg hb]
      decide

lemma mkItem_summary_ne_empty (c : Candidate × CandidateEnv)
    (h : survives c = true) : (mkItem c).summary ≠ "" := by
  unfold survives at h
  rw [Bool.and_eq_true, Bool.and_eq_true] at h
  obtain ⟨md, hmd⟩ := Option.isSome_iff_exists.mp h.2
  unfold mkItem
  simp only [hmd, Option.getD_some]
  exact gemResult_ne_empty hmd

lemma chain4_body {o4 : Strat4Outcome} {st : ExtState} {s : String}
    (h : (chain4 o4 st).2.1 = some s) : 300 ≤ s.length := by
  cases o4 with
  | raises => simp [chain4, strat4_step] at h
  | noHtml => simp [chain4, strat4_step] at h
  | ok t4 soupT =>
      by_cases hlen : 300 ≤ t4.length
      · simp [chain4, strat4_step, hlen] at h
        exact h ▸ hlen
      · simp [chain4, strat4_step, hlen] at h

lemma chain3_body {o3 : Strat3Outcome} {o4 : Strat4Outcome} {st : ExtState}
    {s : String} (h : (chain3 o3 o4 st).2.1 = some s) : 300 ≤ s.length := by
  cases o3 with
  | raises => simp only [chain3, strat3_step] at h; exact chain4_body h
  | noHtml => simp only [chain3, strat3_step] at h; exact chain4_body h
  | okTitleThenRaises sT =>
      simp only [chain3, strat3_step] at h
      exact chain4_body h
  | ok sT t3 =>
      by_cases hlen : 300 ≤ t3.length
      · simp [chain3, strat3_step, hlen] at h
        exact h ▸ hlen
      · simp only [chain3, strat3_step] at h
        rw [if_neg (by simpa using hlen)] at h
        exact chain4_body h

lemma chain2_body {o2 : Strat2Outcome} {o3 : Strat3Outcome}
    {o4 : Strat4Outcome} {st : ExtState} {s : String}
    (h : (chain2 o2 o3 o4 st).2.1 = some s) : 300 ≤ s.length := by
  cases o2 with
  | raises => simp only [chain2, strat2_step] at h; exact chain3_body h
  | ok e =>
      by_cases hp : (pyTruthy e && decide (300 ≤ strLen e)) = true
      · simp only [chain2, strat2_step] at h
        rw [if_pos hp] at h
        simp only at h
        rw [h] at hp
        simp [strLen] at hp
        exact hp.2
      · simp only [chain2, strat2_step] at h
        rw [if_neg hp] at h
        exact chain3_body h

lemma strat1_inl_body {o : Strat1Outcome} {r : ExtResult} {s : String}
    (h : strat1_step o = .inl r) (hb : r.2.1 = some s) : 300 ≤ s.length := by
  cases o with
  | raises => simp [strat1_step] at h
  | ok t x d =>
      simp only [strat1_step] at h
      by_cases hp : (pyTruthy (pyOr x none) && decide (300 ≤ strLen (pyOr x none))) = true
      · rw [if_pos hp] at h
        cases h
        simp only at hb
        rw [hb] at hp
        simp [strLen] at hp
        exact hp.2
      · rw [if_neg hp] at h
        exact absurd h (by simp)

lemma chain4_date {o4 : Strat4Outcome} {st : ExtState} {d : String}
    (h : (chain4 o4 st).2.2 = some d) : st.publish_date = some d := by
  cases o4 with
  | raises => simp [chain4, strat4_step] at h
  | noHtml => simp [chain4, strat4_step] at h
  | ok t4 soupT =>
      by_cases hlen : 300 ≤ t4.length
      · simpa [chain4, strat4_step, hlen] using h
      · simp [chain4, strat4_step, hlen] at h

lemma chain3_date {o3 : Strat3Outcome} {o4 : Strat4Outcome} {st : ExtState}
    {d : String} (h : (chain3 o3 o4 st).2.2 = some d) :
    st.publish_date = some d := by
  cases o3 with
  | raises => simp only [chain3, strat3_step] at h; exact chain4_date h
  | noHtml => simp only [chain3, strat3_step] at h; exact chain4_date h
  | okTitleThenRaises sT =>
      simp only [chain3, strat3_step] at h
      have h4 := chain4_date h
      simpa using h4
  | ok sT t3 =>
      by_cases hlen : 300 ≤ t3.length
      · simpa [chain3, strat3_step, hlen] using h
      · simp only [chain3, strat3_step] at h
        rw [if_neg (by simpa using hlen)] at h
        have h4 := chain4_date h
        simpa using h4

lemma chain2_date {o2 : Strat2Outcome} {o3 : Strat3Outcome}
    {o4 : Strat4Outcome} {st : ExtState} {d : String}
    (h : (chain2 o2 o3 o4 st).2.2 = some d) : st.publish_date = some d := by
  cases o2 with
  | raises => simp only [chain2, strat2_step] at h; exact chain3_date h
  | ok e =>
      by_cases hp : (pyTruthy e && decide (300 ≤ strLen e)) = true
      · simp only [chain2, strat2_step] at h
        rw [if_pos hp] at h
        exact h
      · simp only [chain2, strat2_step] at h
        rw [if_neg hp] at h
        exact chain3_date h

lemma strat1_fail {o : Strat1Outcome} (h : s1Passes o = false) :
    ∃ st, strat1_step o = .inr st := by
  cases o with
  | raises => exact ⟨⟨none, none, none⟩, rfl⟩
  | ok t x d =>
      refine ⟨⟨pyOr t none, pyOr x none, d⟩, ?_⟩
      have hg : (pyTruthy (pyOr x none) && decide (300 ≤ strLen (pyOr x none))) = false := by
        by_cases hxt : pyTruthy x = true
        · simp only [s1Passes, hxt, Bool.true_and] at h
          simp [pyOr, hxt, h]
        · simp [pyOr, hxt]
      simp [strat1_step, hg]

lemma strat2_fail {o : Strat2Outcome} (h : s2Passes o = false) (st : ExtState) :
    strat2_step o st = .inr st := by
  cases o with
  | raises => rfl
  | ok e =>
      simp only [s2Passes] at h
      simp [strat2_step, h]

lemma strat3_fail {o : Strat3Outcome} (h : s3Passes o = false) (st : ExtState) :
    ∃ st2, strat3_step o st = .inr st2 := by
  cases o with
  | raises => exact ⟨st, rfl⟩
  | noHtml => exact ⟨st, rfl⟩
  | okTitleThenRaises sT =>
      exact ⟨⟨pyOr st.title (some sT), st.text, st.publish_date⟩, rfl⟩
  | ok sT t3 =>
      refine ⟨⟨pyOr st.title (some sT), some t3, st.publish_date⟩, ?_⟩
      have hn : ¬ 300 ≤ t3.length := of_decide_eq_false (by simpa [s3Passes] using h)
      simp [strat3_step, hn]

lemma strat4_fail {o : Strat4Outcome} (h : s4Passes o = false) (st : ExtState) :
    ∃ st2, strat4_step o st = .inr st2 := by
  cases o with
  | raises => exact ⟨st, rfl⟩
  | noHtml => exact ⟨st, rfl⟩
  | ok t4 soupT =>
      refine ⟨⟨st.title, some t4, st.publish_date⟩, ?_⟩
      have hn : ¬ 300 ≤ t4.length := of_decide_eq_false (by simpa [s4Passes] using h)
      simp [strat4_step, hn]

lemma strat1_step_of_short {t x : Option String} {d : Option String}
    (h : strLen x < 300) :
    strat1_step (.ok t x d) = .inr ⟨pyOr t none, pyOr x none, d⟩ := by
  have hg : (pyTruthy (pyOr x none) && decide (300 ≤ strLen (pyOr x none))) = false := by
    by_cases hxt : pyTruthy x = true
    · simp [pyOr, hxt]
      omega
    · simp [pyOr, hxt]
  simp [strat1_step, hg]

lemma search_ok_case (cfg : Config) (q : Option String)
    (results : List (Candidate × CandidateEnv))
    (hcred : credsOk cfg = true) (hq : pyStrip (q.getD "") ≠ "") :
    search cfg q results =
      (if (!results.isEmpty && (processLoop results []).isEmpty) = true
       then .err500 allFailedMsg else .ok (processLoop results [])) := by
  have hqe : (pyStrip (q.getD "")).isEmpty = false := by
    rw [← Bool.not_eq_true]
    intro hh
    exact hq ((String.isEmpty_iff _).mp hh)
  simp [search, hcred, hqe]

/-! ## Claim theorems -/

/-- C1: For every query accepted by `search` (credentials present, query
non-empty after trimming): if the search provider yields zero candidates,
`search` returns the empty non-error result list; if it yields at least one
candidate and no candidate survives extraction and summarization, `search`
fails with the 500-class "none could be summarized" error, which is
distinct from the zero-candidate response. -/
theorem run_two_tier_failure (cfg : Config) (q : Option String)
    (results : List (Candidate × CandidateEnv))
    (hcred : credsOk cfg = true) (hq : pyStrip (q.getD "") ≠ "") :
    (results = [] → search cfg q results = .ok []) ∧
    (results ≠ [] → (∀ c ∈ results, survives c = false) →
      search cfg q results = .err500 allFailedMsg) ∧
    SearchResponse.err500 allFailedMsg ≠ SearchResponse.ok [] := by
  refine ⟨?_, ?_, by simp⟩
  · intro hr
    subst hr
    rw [search_ok_case cfg q [] hcred hq]
    simp [processLoop]
  · intro hr hall
    rw [search_ok_case cfg q results hcred hq]
    rw [processLoop_none results [] hall]
    simp [hr]

/-- C2: with credentials and a non-empty query, for every candidate list of
length ≥ 6 in which every candidate survives extraction and summarization,
`search` returns exactly the summaries of the first 6 candidates in
encounter order; processing stops at the quota (the candidates after the
first 6 are never consulted), and no result list ever exceeds 6 items. -/
theorem run_quota_law (cfg : Config) (q : Option String)
    (results : List (Candidate × CandidateEnv))
    (hcred : credsOk cfg = true) (hq : pyStrip (q.getD "") ≠ "")
    (hlen : 6 ≤ results.length)
    (hall : ∀ c ∈ results, survives c = true) :
    search cfg q results = .ok ((results.take 6).map mkItem) ∧
    ((results.take 6).map mkItem).length = 6 ∧
    (∀ rest, processLoop (results.take 6 ++ rest) [] = (results.take 6).map mkItem) ∧
    (∀ rs : List (Candidate × CandidateEnv), (processLoop rs []).length ≤ 6) := by
  have hloop : processLoop results [] = (results.take 6).map mkItem := by
    have h := processLoop_all results [] hall (by simp)
    simpa using h
  have htk : (results.take 6).length = 6 := by
    simp [List.length_take]
    omega
  have hlen6 : ((results.take 6).map mkItem).length = 6 := by
    rw [List.length_map]
    exact htk
  have hne : ((results.take 6).map mkItem) ≠ [] := by
    intro hh
    rw [hh] at hlen6
    simp at hlen6
  refine ⟨?_, hlen6, ?_, fun rs => processLoop_le_six rs [] (by simp)⟩
  · rw [search_ok_case cfg q results hcred hq, hloop]
    simp [hne]
  · intro rest
    refine processLoop_stop (results.take 6) rest []
      (fun c hc => hall c (List.mem_of_mem_take hc)) ?_ (by simp [htk])
    intro hh
    rw [hh] at htk
    simp at htk

/-- C7: `search` fails with the 500-class missing-credential error when any
of the three credentials is absent, and with the 400-class empty-query
error when the credentials are present but the query trims to empty; in
both cases the outcome is the same for every candidate list (no search,
extraction, or summarization influences it). -/
theorem run_preconditions (cfg : Config) (q : Option String)
    (results : List (Candidate × CandidateEnv)) :
    (credsOk cfg = false → search cfg q results = .err500 keysMsg) ∧
    (credsOk cfg = true → pyStrip (q.getD "") = "" →
      search cfg q results = .err400 emptyQueryMsg) := by
  constructor
  · intro h
    simp [search, h]
  · intro hc hq
    have hqe : (pyStrip (q.getD "")).isEmpty = true := (String.isEmpty_iff _).mpr hq
    simp [search, hc, hqe]

/-- C10: when a credential is missing, `search` returns the 500-class
missing-credential error even for a query that is empty after trimming:
the credential check runs before query validation, so the response is not
the 400-class empty-query error. -/
theorem credential_check_precedes_query_check (cfg : Config) (q : Option String)
    (results : List (Candidate × CandidateEnv))
    (hcred : credsOk cfg = false) (hq : pyStrip (q.getD "") = "") :
    search cfg q results = .err500 keysMsg ∧
    search cfg q results ≠ .err400 emptyQueryMsg := by
  have h1 : search cfg q results = .err500 keysMsg := by simp [search, hcred]
  refine ⟨h1, ?_⟩
  rw [h1]
  simp

/-- C8: a candidate whose summarization call raises or returns an
empty/falsy result contributes nothing — the loop continues with the next
candidate — and consequently every summary in a successfully returned
result list is non-empty. -/
theorem run_skip_failed_summaries :
    (∀ (c : Candidate × CandidateEnv) rest acc, gemResult c.2.gem = none →
      processLoop (c :: rest) acc = processLoop rest acc) ∧
    (∀ (cfg : Config) (q : Option String)
        (results : List (Candidate × CandidateEnv)) (items : List SummaryItem),
      search cfg q results = .ok items → ∀ i ∈ items, i.summary ≠ "") := by
  constructor
  · intro c rest acc hg
    apply processLoop_skip
    unfold survives
    rw [hg]
    simp
  · intro cfg q results items hs i hi
    simp only [search] at hs
    split at hs
    · simp at hs
    · split at hs
      · simp at hs
      · split at hs
        · simp at hs
        · rw [SearchResponse.ok.injEq] at hs
          subst hs
          rcases mem_processLoop results [] i hi with h0 | ⟨c, _, hsv, hi2⟩
          · simp at h0
          · rw [hi2]
            exact mkItem_summary_ne_empty c hsv

/-- C9: every item the loop appends comes from some candidate, its title is
the extracted title when truthy, else the candidate title when truthy,
else the literal "Untitled", and it is never the empty string. -/
theorem run_title_fallback :
    (∀ (results : List (Candidate × CandidateEnv)) (i : SummaryItem),
      i ∈ processLoop results [] →
        (∃ c, c ∈ results ∧ i = mkItem c) ∧ i.title ≠ "") ∧
    (∀ c : Candidate × CandidateEnv,
      (mkItem c).title = mkTitle (extract_text c.2.ext).1 c.1.title) ∧
    (∀ a b : Option String,
      (pyTruthy a = true → mkTitle a b = a.getD "") ∧
      (pyTruthy a = false → pyTruthy b = true → mkTitle a b = b.getD "") ∧
      (pyTruthy a = false → pyTruthy b = false → mkTitle a b = "Untitled")) := by
  refine ⟨?_, fun c => rfl, ?_⟩
  · intro results i hi
    rcases mem_processLoop results [] i hi with h0 | ⟨c, hc, _, hi2⟩
    · simp at h0
    · refine ⟨⟨c, hc, hi2⟩, ?_⟩
      rw [hi2]
      exact mkTitle_ne_empty _ _
  · intro a b
    refine ⟨fun ha => ?_, fun ha hb => ?_, fun ha hb => ?_⟩
    · simp [mkTitle, ha]
    · simp [mkTitle, ha, hb]
    · simp [mkTitle, ha, hb]

/-- C3: the four strategies run in strict priority order with the
300-character quality gate: any body `extract_text` returns has length
≥ 300 (a shorter body is never the returned body), and as soon as a
strategy's gate passes, its result is returned with no later strategy
consulted (the outcome is the same for every choice of the later
strategies' behaviors). -/
theorem extract_priority_and_gate (env : ExtractEnv) :
    (∀ s : String, (extract_text env).2.1 = some s → 300 ≤ s.length) ∧
    (∀ r : ExtResult, strat1_step env.s1 = .inl r →
      ∀ o2 o3 o4, extract_text ⟨env.s1, o2, o3, o4⟩ = r) ∧
    (∀ (st : ExtState) (r : ExtResult), strat1_step env.s1 = .inr st →
      strat2_step env.s2 st = .inl r →
      ∀ o3 o4, extract_text ⟨env.s1, env.s2, o3, o4⟩ = r) ∧
    (∀ (st st2 : ExtState) (r : ExtResult), strat1_step env.s1 = .inr st →
      strat2_step env.s2 st = .inr st2 → strat3_step env.s3 st2 = .inl r →
      ∀ o4, extract_text ⟨env.s1, env.s2, env.s3, o4⟩ = r) ∧
    (∀ (st st2 st3 : ExtState) (r : ExtResult), strat1_step env.s1 = .inr st →
      strat2_step env.s2 st = .inr st2 → strat3_step env.s3 st2 = .inr st3 →
      strat4_step env.s4 st3 = .inl r → extract_text env = r) := by
  refine ⟨?_, ?_, ?_, ?_, ?_⟩
  · intro s h
    unfold extract_text at h
    cases he : strat1_step env.s1 with
    | inl r =>
        rw [he] at h
        exact strat1_inl_body he h
    | inr st =>
        rw [he] at h
        exact chain2_body h
  · intro r hr o2 o3 o4
    simp [extract_text, hr]
  · intro st r hs1 hs2 o3 o4
    simp [extract_text, chain2, hs1, hs2]
  · intro st st2 r hs1 hs2 hs3 o4
    simp [extract_text, chain2, chain3, hs1, hs2, hs3]
  · intro st st2 st3 r hs1 hs2 hs3 hs4
    simp [extract_text, chain2, chain3, chain4, hs1, hs2, hs3, hs4]

/-- C4: if strategy 1 supplies a non-empty title with a body shorter than
300 characters, strategy 2 fails its gate, and strategy 3 passes its gate
while supplying an empty title, then `extract_text` returns strategy 1's
title together with strategy 3's body (the carried-forward title is not
overwritten by the empty one). -/
theorem extract_title_carry_forward (env : ExtractEnv) (t : String)
    (x d : Option String) (b3 : String)
    (h1 : env.s1 = .ok (some t) x d) (ht : t ≠ "")
    (hx : strLen x < 300) (h2 : s2Passes env.s2 = false)
    (h3 : env.s3 = .ok "" b3) (hb : 300 ≤ b3.length) :
    extract_text env = (some t, some b3, d) := by
  have htt : pyTruthy (some t) = true := by
    cases hte : t.isEmpty
    · simp [hte]
    · exact absurd ((String.isEmpty_iff t).mp hte) ht
  have hst1 : strat1_step env.s1 = .inr ⟨some t, pyOr x none, d⟩ := by
    rw [h1, strat1_step_of_short hx]
    simp [pyOr, htt]
  have hst3 : strat3_step env.s3 ⟨some t, pyOr x none, d⟩
      = .inl (some t, some b3, d) := by
    rw [h3]
    simp only [strat3_step]
    rw [if_pos hb]
    simp [pyOr, htt]
  simp [extract_text, chain2, chain3, hst1,
    strat2_fail h2 ⟨some t, pyOr x none, d⟩, hst3]

/-- C5: when all four strategies fail the quality gate or raise,
`extract_text` returns the total-failure signal `(None, None, None)` —
no partial title or publish date recovered by a rejected strategy is
exposed. -/
theorem extract_total_failure (env : ExtractEnv)
    (h1 : s1Passes env.s1 = false) (h2 : s2Passes env.s2 = false)
    (h3 : s3Passes env.s3 = false) (h4 : s4Passes env.s4 = false) :
    extract_text env = (none, none, none) := by
  obtain ⟨st1, hst1⟩ := strat1_fail h1
  obtain ⟨st3, hst3⟩ := strat3_fail h3 st1
  obtain ⟨st4, hst4⟩ := strat4_fail h4 st3
  simp [extract_text, chain2, chain3, chain4, hst1,
    strat2_fail h2 st1, hst3, hst4]

/-- C6: the publish date is only ever set by strategy 1, so whenever
`extract_text` returns a non-absent publish date, that date is the one
strategy 1's outcome carried. -/
theorem extract_date_only_strategy1 (env : ExtractEnv) (d : String)
    (h : (extract_text env).2.2 = some d) : env.s1.dateOf = some d := by
  unfold extract_text at h
  cases he : env.s1 with
  | raises =>
      rw [he] at h
      simp only [strat1_step] at h
      have h2 := chain2_date h
      simp at h2
  | ok t x dd =>
      rw [he] at h
      simp only [strat1_step] at h
      by_cases hc : (pyTruthy (pyOr x none)
          && decide (300 ≤ strLen (pyOr x none))) = true
      · rw [if_pos hc] at h
        exact h
      · rw [if_neg hc] at h
        exact chain2_date h

/-! ## Witnesses -/

/-- The C4 scenario: strategy 1 has a real title with a short body,
strategy 2 raises, strategy 3 passes the gate with an empty title. -/
def envC4 : ExtractEnv :=
  ⟨.ok (some "T1") (some "short") (some "2024-05-05"), .raises, .ok "" bodyA, .noHtml⟩

/-- An environment where strategy 1 recovers a title and date but a short
body, and every other strategy fails. -/
def envPartial : ExtractEnv :=
  ⟨.ok (some "T") (some "short") (some "D"), .raises, .noHtml, .raises⟩

set_option maxRecDepth 20000 in
/-- Witness for `run_two_tier_failure` at concrete inputs. -/
theorem run_two_tier_failure_witness :
    credsOk cfgA = true ∧ pyStrip ((some "q" : Option String).getD "") ≠ "" ∧
    search cfgA (some "q") [] = .ok [] ∧
    search cfgA (some "q") [badCand] = .err500 allFailedMsg :=
  ⟨by decide, by decide,
    (run_two_tier_failure cfgA (some "q") [] (by decide) (by decide)).1 rfl,
    (run_two_tier_failure cfgA (some "q") [badCand] (by decide) (by decide)).2.1
      (by decide) (by decide)⟩

set_option maxRecDepth 20000 in
/-- Witness for `run_quota_law` at seven all-summarizable candidates. -/
theorem run_quota_law_witness :
    6 ≤ results7.length ∧ (∀ c ∈ results7, survives c = true) ∧
    search cfgA (some "q") results7 = .ok ((results7.take 6).map mkItem) ∧
    ((results7.take 6).map mkItem).length = 6 :=
  ⟨by decide, by decide,
    (run_quota_law cfgA (some "q") results7 (by decide) (by decide) (by decide)
      (by decide)).1,
    (run_quota_law cfgA (some "q") results7 (by decide) (by decide) (by decide)
      (by decide)).2.1⟩

set_option maxRecDepth 20000 in
/-- Witness for `extract_priority_and_gate`: strategy 1 passes, so the
result ignores the later strategies, and a returned body is ≥ 300 chars. -/
theorem extract_priority_and_gate_witness :
    300 ≤ bodyA.length ∧
    extract_text ⟨envPass.s1, .ok (some bodyA), .ok "X" bodyA, .ok bodyA none⟩
      = (some "T1", some bodyA, some "2024-01-02") :=
  ⟨(extract_priority_and_gate envPass).1 bodyA (by decide),
   (extract_priority_and_gate envPass).2.1
     (some "T1", some bodyA, some "2024-01-02") (by decide)
     (.ok (some bodyA)) (.ok "X" bodyA) (.ok bodyA none)⟩

set_option maxRecDepth 20000 in
/-- Witness for `extract_title_carry_forward` at the C4 scenario. -/
theorem extract_title_carry_forward_witness :
    extract_text envC4 = (some "T1", some bodyA, some "2024-05-05") :=
  extract_title_carry_forward envC4 "T1" (some "short") (some "2024-05-05")
    bodyA rfl (by decide) (by decide) (by decide) rfl (by decide)

/-- Witness for `extract_total_failure`: a rejected strategy-1 title and
date are not exposed. -/
theorem extract_total_failure_witness :
    extract_text envPartial = (none, none, none) :=
  extract_total_failure envPartial (by decide) (by decide) (by decide)
    (by decide)

set_option maxRecDepth 20000 in
/-- Witness for `extract_date_only_strategy1` at a passing strategy 1. -/
theorem extract_date_only_strategy1_witness :
    (extract_text envPass).2.2 = some "2024-01-02" ∧
    envPass.s1.dateOf = some "2024-01-02" :=
  ⟨by decide, extract_date_only_strategy1 envPass "2024-01-02" (by decide)⟩

set_option maxRecDepth 20000 in
/-- Witness for `run_preconditions` at a missing credential and at an
all-blank query. -/
theorem run_preconditions_witness :
    search cfgMissing (some "q") [goodCand] = .err500 keysMsg ∧
    search cfgA (some "   ") [goodCand] = .err400 emptyQueryMsg :=
  ⟨(run_preconditions cfgMissing (some "q") [goodCand]).1 (by decide),
   (run_preconditions cfgA (some "   ") [goodCand]).2 (by decide) (by decide)⟩

set_option maxRecDepth 20000 in
/-- Witness for `run_skip_failed_summaries`: a raising Gemini call is
skipped, and a returned item's summary is non-empty. -/
theorem run_skip_failed_summaries_witness :
    processLoop [badCand] [] = processLoop [] [] ∧
    (mkItem goodCand).summary ≠ "" :=
  ⟨run_skip_failed_summaries.1 badCand [] [] (by decide),
   run_skip_failed_summaries.2 cfgA (some "q") [goodCand] [mkItem goodCand]
     (by decide) (mkItem goodCand) (by decide)⟩

set_option maxRecDepth 20000 in
/-- Witness for `run_title_fallback` on a singleton loop and on the two
fallback branches of the title rule. -/
theorem run_title_fallback_witness :
    ((∃ c, c ∈ [goodCand] ∧ mkItem goodCand = mkItem c) ∧
      (mkItem goodCand).title ≠ "") ∧
    mkTitle none (some "CT") = (some "CT" : Option String).getD "" ∧
    mkTitle none none = "Untitled" :=
  ⟨run_title_fallback.1 [goodCand] (mkItem goodCand) (by decide),
   (run_title_fallback.2.2 none (some "CT")).2.1 (by decide) (by decide),
   (run_title_fallback.2.2 none none).2.2 (by decide) (by decide)⟩

/-- Witness for `credential_check_precedes_query_check`: missing key and
blank query give the 500, not the 400. -/
theorem credential_check_precedes_query_check_witness :
    search cfgMissing (some "") [goodCand] = .err500 keysMsg ∧
    search cfgMissing (some "") [goodCand] ≠ .err400 emptyQueryMsg :=
  credential_check_precedes_query_check cfgMissing (some "") [goodCand]
    (by decide) (by decide)

end App
